import Mathlib

/-!
Shallow embedding of the `gores` Go library (response.go, response_error.go)
and the parts of its external collaborator `gocerr` that the code inspects.

Go slices may be nil or present; a possibly-nil slice is modelled as
`Option (List _)` (`none` = nil slice).  Go's built-in `len` and `append`
on such slices are modelled by `goLen` and `goAppend` below.  A Go `error`
interface value is modelled as `Option GoError` (`none` = nil error), where
`GoError` distinguishes the structural type of the value: a `gocerr.Error`
(the classified-error type) or any other error exposing only its text.
-/

namespace Gores

/-- Go's view of a possibly-nil slice as a list: nil reads as the empty list. -/
def goFields {α : Type} (o : Option (List α)) : List α := o.getD []

/-- Go's `len` on a possibly-nil slice: `len(nil) = 0`. -/
def goLen {α : Type} (o : Option (List α)) : Nat := (o.getD []).length

/-- Go's `append(s, xs...)` on a possibly-nil slice: appending no elements
returns the slice unchanged (nil stays nil); appending at least one element
yields a present slice holding the old elements followed by the new ones. -/
def goAppend {α : Type} (o : Option (List α)) (l : List α) : Option (List α) :=
  if l.isEmpty then o else some (o.getD [] ++ l)

/-- `gocerr.ErrorField`: one (field, message) pair carried by a classified
error (external collaborator contract: `Fields: ordered sequence of
{Field: string, Message: string}`). -/
structure ErrorField where
  Field : String
  Message : String
deriving DecidableEq

/-- `gocerr.Error`: the classified-error type of the external library, a
black box exposing a numeric code, a message, and an ordered field list. -/
structure GocerrError where
  Code : Int
  Message : String
  ErrorFields : List ErrorField
deriving DecidableEq

/-- The structural type of a non-nil Go `error` value as the code inspects
it: either the classified type `gocerr.Error`, or any other error value, of
which only the text returned by its `Error()` method is observed. -/
inductive GoError : Type where
  | custom (e : GocerrError) : GoError
  | generic (msg : String) : GoError
deriving DecidableEq

/-- The Go type assertion `err.(gocerr.Error)` succeeds exactly on the
`custom` constructor. -/
def isCustomError : GoError → Bool
  | GoError.custom _ => true
  | GoError.generic _ => false

/-- `ResponseErrorFieldVM` (response_error_field.go, in src/unnamed/part_000):
a single field-level error entry holding a field name and a message. -/
structure ResponseErrorFieldVM where
  Field : String
  Message : String
deriving DecidableEq

/-- `NewResponseErrorFieldVM` (response_error_field.go, in
src/unnamed/part_000): returns `&ResponseErrorFieldVM{Field: field,
Message: message}`, matching the test `TestNewResponseErrorFieldVM`. -/
def NewResponseErrorFieldVM (field message : String) : ResponseErrorFieldVM :=
  { Field := field, Message := message }

/-- `ResponseErrorVM` (response_error.go lines 5-8): a message and a
possibly-nil slice of field entries. -/
structure ResponseErrorVM where
  Message : String
  ErrorFields : Option (List ResponseErrorFieldVM)
deriving DecidableEq

/-- `NewResponseErrorVM` (response_error.go lines 10-12): returns
`&ResponseErrorVM{}`, the zero value — empty message and nil field slice. -/
def NewResponseErrorVM : ResponseErrorVM :=
  { Message := "", ErrorFields := none }

namespace ResponseErrorVM

/-- `SetMessage` (response_error.go lines 14-18). -/
def SetMessage (vm : ResponseErrorVM) (message : String) : ResponseErrorVM :=
  { vm with Message := message }

/-- `AddErrorFields` (response_error.go lines 20-24):
`vm.ErrorFields = append(vm.ErrorFields, errorFields...)`. -/
def AddErrorFields (vm : ResponseErrorVM) (errorFields : List ResponseErrorFieldVM) :
    ResponseErrorVM :=
  { vm with ErrorFields := goAppend vm.ErrorFields errorFields }

/-- `mapFromCustomError` (response_error.go lines 26-36): sets the message,
then, only when the classified error carries at least one field, loops over
its fields in order, appending one freshly constructed entry per field. -/
def mapFromCustomError (vm : ResponseErrorVM) (err : GocerrError) : ResponseErrorVM :=
  let vm1 := vm.SetMessage err.Message
  if 0 < err.ErrorFields.length then
    err.ErrorFields.foldl
      (fun acc f => acc.AddErrorFields [NewResponseErrorFieldVM f.Field f.Message]) vm1
  else vm1

/-- `ParseError` (response_error.go lines 38-57): nil short-circuits;
otherwise the type assertion `err.(gocerr.Error)` picks the classified
branch, and any other error takes the generic branch using `err.Error()`. -/
def ParseError (vm : ResponseErrorVM) (err : Option GoError) : ResponseErrorVM :=
  match err with
  | none => vm
  | some (GoError.custom c) => vm.mapFromCustomError c
  | some (GoError.generic s) => vm.SetMessage s

end ResponseErrorVM

/-- `http.StatusInternalServerError` from Go's net/http package. -/
def statusInternalServerError : Int := 500

/-- `ResponseVM[T]` (response.go lines 9-13): code, optional error detail,
and a generic payload. -/
structure ResponseVM (T : Type) where
  Code : Int
  Error : Option ResponseErrorVM
  Data : T

/-- `NewResponseVM` (response.go lines 15-17): returns `&ResponseVM[T]{}`,
the zero value — code 0, nil error, zero-valued data. -/
def NewResponseVM (T : Type) [Inhabited T] : ResponseVM T :=
  { Code := 0, Error := none, Data := default }

namespace ResponseVM

variable {T : Type}

/-- `SetCode` (response.go lines 19-23). -/
def SetCode (vm : ResponseVM T) (code : Int) : ResponseVM T :=
  { vm with Code := code }

/-- `SetData` (response.go lines 25-29). -/
def SetData (vm : ResponseVM T) (data : T) : ResponseVM T :=
  { vm with Data := data }

/-- `SetError` (response.go lines 31-35): plain assignment of a possibly-nil
error-detail pointer. -/
def SetError (vm : ResponseVM T) (err : Option ResponseErrorVM) : ResponseVM T :=
  { vm with Error := err }

/-- `SetErrorFromError` (response.go lines 37-59): nil short-circuits;
otherwise set the default 500 code, overwrite it with the classified error's
code when the type assertion succeeds, and attach a fresh
`ResponseErrorVM` populated by `ParseError`. -/
def SetErrorFromError (vm : ResponseVM T) (err : Option GoError) : ResponseVM T :=
  match err with
  | none => vm
  | some e =>
    let vm1 := vm.SetCode statusInternalServerError
    let vm2 := match e with
      | GoError.custom c => vm1.SetCode c.Code
      | GoError.generic _ => vm1
    { vm2 with Error := some (NewResponseErrorVM.ParseError (some e)) }

end ResponseVM

/-- One envelope operation, for reasoning about arbitrary operation
sequences on a `ResponseVM`. -/
inductive EnvOp (T : Type) : Type where
  | setCode (c : Int) : EnvOp T
  | setData (d : T) : EnvOp T
  | setError (e : Option ResponseErrorVM) : EnvOp T
  | setErrorFromError (e : Option GoError) : EnvOp T

/-- Apply one envelope operation. -/
def applyOp {T : Type} (vm : ResponseVM T) : EnvOp T → ResponseVM T
  | EnvOp.setCode c => vm.SetCode c
  | EnvOp.setData d => vm.SetData d
  | EnvOp.setError e => vm.SetError e
  | EnvOp.setErrorFromError e => vm.SetErrorFromError e

/-- Apply a sequence of envelope operations in order. -/
def applyOps {T : Type} (vm : ResponseVM T) (ops : List (EnvOp T)) : ResponseVM T :=
  ops.foldl applyOp vm

/-- Modelled from the spec: a "valid HTTP-style status integer", taken as
the standard HTTP status range 100-599.  The source defines no such
predicate and performs no validation. -/
def isValidHTTPStatus (n : Int) : Bool :=
  100 ≤ n && n ≤ 599

/-- An operation supplies only valid status integers: its `setCode` argument,
or the code carried by a classified error it passes in. -/
def opCodeValid {T : Type} : EnvOp T → Bool
  | EnvOp.setCode c => isValidHTTPStatus c
  | EnvOp.setErrorFromError (some (GoError.custom c)) => isValidHTTPStatus c.Code
  | _ => true

/-- Appending to a possibly-nil slice reads back as the old elements followed
by the new ones, whatever the nil-ness of the receiver. -/
theorem goFields_goAppend {α : Type} (o : Option (List α)) (l : List α) :
    goFields (goAppend o l) = goFields o ++ l := by
  cases l <;> simp [goFields, goAppend]

/-- The field-appending loop of `mapFromCustomError` never touches the
message. -/
theorem foldl_addErrorFields_message (fs : List ErrorField) (vm : ResponseErrorVM) :
    (fs.foldl
      (fun acc f => acc.AddErrorFields [NewResponseErrorFieldVM f.Field f.Message])
      vm).Message = vm.Message := by
  induction fs generalizing vm with
  | nil => rfl
  | cons f rest ih =>
    simp only [List.foldl_cons]
    rw [ih]
    rfl

/-- The field-appending loop of `mapFromCustomError` appends exactly the
converted fields, in order, after whatever the accumulator held. -/
theorem foldl_addErrorFields_goFields (fs : List ErrorField) (vm : ResponseErrorVM) :
    goFields (fs.foldl
      (fun acc f => acc.AddErrorFields [NewResponseErrorFieldVM f.Field f.Message])
      vm).ErrorFields
      = goFields vm.ErrorFields ++ fs.map (fun f => NewResponseErrorFieldVM f.Field f.Message) := by
  induction fs generalizing vm with
  | nil => simp
  | cons f rest ih =>
    simp only [List.foldl_cons, List.map_cons]
    rw [ih]
    simp [ResponseErrorVM.AddErrorFields, goFields_goAppend]

/-- Once the accumulator's field slice is present (non-nil), the
field-appending loop keeps it present and extends it in order. -/
theorem foldl_addErrorFields_some (fs : List ErrorField) (vm : ResponseErrorVM)
    (ys : List ResponseErrorFieldVM) (h : vm.ErrorFields = some ys) :
    (fs.foldl
      (fun acc f => acc.AddErrorFields [NewResponseErrorFieldVM f.Field f.Message])
      vm).ErrorFields
      = some (ys ++ fs.map (fun f => NewResponseErrorFieldVM f.Field f.Message)) := by
  induction fs generalizing vm ys with
  | nil => simpa using h
  | cons f rest ih =>
    simp only [List.foldl_cons, List.map_cons]
    rw [ih (vm.AddErrorFields [NewResponseErrorFieldVM f.Field f.Message])
      (ys ++ [NewResponseErrorFieldVM f.Field f.Message])]
    · simp
    · simp [ResponseErrorVM.AddErrorFields, goAppend, goFields, h]

/-- `mapFromCustomError` sets the message to the classified error's
message. -/
theorem mapFromCustomError_message (vm : ResponseErrorVM) (c : GocerrError) :
    (vm.mapFromCustomError c).Message = c.Message := by
  unfold ResponseErrorVM.mapFromCustomError
  split
  · rw [foldl_addErrorFields_message]
    rfl
  · rfl

/-- Read through Go's `len`-view, `mapFromCustomError` appends the converted
classified-error fields, in order, after the entries already held. -/
theorem mapFromCustomError_goFields (vm : ResponseErrorVM) (c : GocerrError) :
    goFields (vm.mapFromCustomError c).ErrorFields
      = goFields vm.ErrorFields
        ++ c.ErrorFields.map (fun f => NewResponseErrorFieldVM f.Field f.Message) := by
  unfold ResponseErrorVM.mapFromCustomError
  split
  · rw [foldl_addErrorFields_goFields]
    rfl
  · rename_i hlen
    have hnil : c.ErrorFields = [] := by
      cases hc : c.ErrorFields with
      | nil => rfl
      | cons x xs => rw [hc] at hlen; simp at hlen
    rw [hnil]
    simp [ResponseErrorVM.SetMessage]

/-- At the level of the possibly-nil slice itself, `mapFromCustomError`
leaves the field slice untouched when the classified error has no fields,
and otherwise produces a present slice of old entries followed by the
converted new ones. -/
theorem mapFromCustomError_errorFields (vm : ResponseErrorVM) (c : GocerrError) :
    (vm.mapFromCustomError c).ErrorFields
      = (if c.ErrorFields.isEmpty then vm.ErrorFields
         else some (goFields vm.ErrorFields
           ++ c.ErrorFields.map (fun f => NewResponseErrorFieldVM f.Field f.Message))) := by
  cases hc : c.ErrorFields with
  | nil =>
    unfold ResponseErrorVM.mapFromCustomError
    rw [hc]
    simp [ResponseErrorVM.SetMessage]
  | cons f rest =>
    unfold ResponseErrorVM.mapFromCustomError
    rw [hc]
    rw [if_pos (by simp : (0 : Nat) < (f :: rest).length)]
    rw [List.foldl_cons]
    rw [foldl_addErrorFields_some rest
      ((vm.SetMessage c.Message).AddErrorFields [NewResponseErrorFieldVM f.Field f.Message])
      (goFields vm.ErrorFields ++ [NewResponseErrorFieldVM f.Field f.Message])
      (by simp [ResponseErrorVM.AddErrorFields, ResponseErrorVM.SetMessage, goAppend, goFields])]
    simp

/-- C1: applying `SetErrorFromError` with a classified error of code C,
message M, and field list F sets the envelope's Code to C and attaches an
error whose Message is M and whose field entries are exactly F converted in
order — same length, same order, each entry's Field and Message taken from
the corresponding pair of F. -/
theorem setErrorFromError_classified {T : Type} (vm : ResponseVM T) (c : GocerrError) :
    (vm.SetErrorFromError (some (GoError.custom c))).Code = c.Code ∧
    ∃ d : ResponseErrorVM,
      (vm.SetErrorFromError (some (GoError.custom c))).Error = some d ∧
      d.Message = c.Message ∧
      goFields d.ErrorFields
        = c.ErrorFields.map (fun f => NewResponseErrorFieldVM f.Field f.Message) ∧
      (goFields d.ErrorFields).length = c.ErrorFields.length := by
  refine ⟨rfl, NewResponseErrorVM.mapFromCustomError c, rfl,
    mapFromCustomError_message _ _, ?_, ?_⟩
  · rw [mapFromCustomError_goFields]
    simp [goFields, NewResponseErrorVM]
  · rw [mapFromCustomError_goFields]
    simp [goFields, NewResponseErrorVM]

/-- C2 counterexample: on an entity already holding a field entry,
`ParseError` with a classified error carrying one field APPENDS the new
entry after the stale one (yielding two entries, not the one-entry wholesale
replacement the claim states), and with a classified error carrying zero
fields it leaves the stale entry in place instead of emptying the list. -/
theorem parseError_not_wholesale_counterexample :
    (ResponseErrorVM.ParseError
        { Message := "", ErrorFields := some [{ Field := "f0", Message := "m0" }] }
        (some (GoError.custom
          { Code := 400, Message := "bad",
            ErrorFields := [{ Field := "f1", Message := "m1" }] }))).ErrorFields
      = some [{ Field := "f0", Message := "m0" }, { Field := "f1", Message := "m1" }] ∧
    some [({ Field := "f0", Message := "m0" } : ResponseErrorFieldVM),
          { Field := "f1", Message := "m1" }]
      ≠ some [({ Field := "f1", Message := "m1" } : ResponseErrorFieldVM)] ∧
    (ResponseErrorVM.ParseError
        { Message := "", ErrorFields := some [{ Field := "f0", Message := "m0" }] }
        (some (GoError.custom
          { Code := 422, Message := "empty", ErrorFields := [] }))).ErrorFields
      = some [{ Field := "f0", Message := "m0" }] :=
  ⟨by decide, by decide, by decide⟩

/-- C2 (amended): `ParseError` on a classified error sets the message to the
classified error's message and APPENDS freshly constructed entries for each
field detail, in order, after any entries already held; with zero field
details the field slice is left exactly as it was before the call (possibly
stale), not reset to empty. -/
theorem parseError_classified_appends (vm : ResponseErrorVM) (c : GocerrError) :
    (vm.ParseError (some (GoError.custom c))).Message = c.Message ∧
    goFields (vm.ParseError (some (GoError.custom c))).ErrorFields
      = goFields vm.ErrorFields
        ++ c.ErrorFields.map (fun f => NewResponseErrorFieldVM f.Field f.Message) ∧
    (vm.ParseError (some (GoError.custom c))).ErrorFields
      = (if c.ErrorFields.isEmpty then vm.ErrorFields
         else some (goFields vm.ErrorFields
           ++ c.ErrorFields.map (fun f => NewResponseErrorFieldVM f.Field f.Message))) :=
  ⟨mapFromCustomError_message vm c, mapFromCustomError_goFields vm c,
    mapFromCustomError_errorFields vm c⟩

/-- C3: applying `SetErrorFromError` with a generic (non-classified) error of
text S sets the envelope's Code to the default internal-error status 500 and
attaches an error whose Message is S and whose field sequence is empty. -/
theorem setErrorFromError_generic {T : Type} (vm : ResponseVM T) (s : String) :
    (vm.SetErrorFromError (some (GoError.generic s))).Code = statusInternalServerError ∧
    ∃ d : ResponseErrorVM,
      (vm.SetErrorFromError (some (GoError.generic s))).Error = some d ∧
      d.Message = s ∧
      goFields d.ErrorFields = [] ∧
      goLen d.ErrorFields = 0 :=
  ⟨rfl, NewResponseErrorVM.SetMessage s, rfl, rfl, rfl, rfl⟩

/-- C4: a nil error input is a complete no-op: `SetErrorFromError none`
returns the envelope unchanged (Code, Data, and Error all exactly as
before, no default code set), and `ParseError none` returns the error
detail unchanged (Message and ErrorFields untouched). -/
theorem nil_error_noop {T : Type} (vm : ResponseVM T) (d : ResponseErrorVM) :
    vm.SetErrorFromError none = vm ∧
    (vm.SetErrorFromError none).Code = vm.Code ∧
    (vm.SetErrorFromError none).Data = vm.Data ∧
    (vm.SetErrorFromError none).Error = vm.Error ∧
    d.ParseError none = d ∧
    (d.ParseError none).Message = d.Message ∧
    (d.ParseError none).ErrorFields = d.ErrorFields :=
  ⟨rfl, rfl, rfl, rfl, rfl, rfl, rfl⟩

/-- C5 counterexample: `NewResponseErrorVM` returns the zero value, whose
field slice is nil (`none` — the absent value, not a present empty
sequence), and parsing a classified error with an empty field list on a
fresh entity leaves the slice nil as well, refuting the never-absent
invariant. -/
theorem constructor_fields_absent_counterexample :
    NewResponseErrorVM.ErrorFields = none ∧
    (NewResponseErrorVM.ParseError
      (some (GoError.custom { Code := 400, Message := "bad", ErrorFields := [] }))).ErrorFields
      = none :=
  ⟨rfl, rfl⟩

/-- C5 (amended): the constructor returns an entity with an empty message
and a nil (absent) field slice whose Go length is 0; parsing a classified
error with an empty field list on a fresh entity leaves the slice nil, still
of Go length 0.  Go's `len` applies to a nil slice and yields 0, so the
length can be inspected without a nil check, but the slice is the absent
value, not a present empty sequence. -/
theorem constructor_fields_nil_goLen_zero (c : Int) (m : String) :
    NewResponseErrorVM.Message = "" ∧
    NewResponseErrorVM.ErrorFields = none ∧
    goLen NewResponseErrorVM.ErrorFields = 0 ∧
    (NewResponseErrorVM.ParseError
      (some (GoError.custom { Code := c, Message := m, ErrorFields := [] }))).ErrorFields
      = none ∧
    goLen (NewResponseErrorVM.ParseError
      (some (GoError.custom { Code := c, Message := m, ErrorFields := [] }))).ErrorFields
      = 0 :=
  ⟨rfl, rfl, rfl, rfl, rfl⟩

/-- C6: classification is purely structural. A generic error whose text is
literally some classified error's message still takes the generic branch in
`ParseError` (message set to the text, no field mapping) and in
`SetErrorFromError` (default 500 code, not the classified error's code);
and there is exactly one classification boundary: every non-nil error is
either the classified constructor, dispatched to `mapFromCustomError`, or
the generic constructor, dispatched to `SetMessage` of its text. -/
theorem classification_structural {T : Type} (vm : ResponseErrorVM)
    (env : ResponseVM T) (c : GocerrError) :
    vm.ParseError (some (GoError.generic c.Message)) = vm.SetMessage c.Message ∧
    (env.SetErrorFromError (some (GoError.generic c.Message))).Code
      = statusInternalServerError ∧
    isCustomError (GoError.generic c.Message) = false ∧
    (∀ (e : GoError) (w : ResponseErrorVM),
      (∃ ce, e = GoError.custom ce ∧ isCustomError e = true ∧
        w.ParseError (some e) = w.mapFromCustomError ce) ∨
      (∃ s, e = GoError.generic s ∧ isCustomError e = false ∧
        w.ParseError (some e) = w.SetMessage s)) := by
  refine ⟨rfl, rfl, rfl, ?_⟩
  intro e w
  cases e with
  | custom ce => exact Or.inl ⟨ce, rfl, rfl, rfl⟩
  | generic s => exact Or.inr ⟨s, rfl, rfl, rfl⟩

/-- C7: `AddErrorFields` is associative and order-preserving: adding a then
b in two calls yields the same entity as the single call with both; a call
with zero arguments is a no-op; and every call preserves previously held
entries and argument order. -/
theorem addErrorFields_assoc (vm : ResponseErrorVM) (a b : ResponseErrorFieldVM)
    (l : List ResponseErrorFieldVM) :
    (vm.AddErrorFields [a]).AddErrorFields [b] = vm.AddErrorFields [a, b] ∧
    vm.AddErrorFields [] = vm ∧
    goFields (vm.AddErrorFields l).ErrorFields = goFields vm.ErrorFields ++ l := by
  refine ⟨?_, rfl, goFields_goAppend _ _⟩
  simp [ResponseErrorVM.AddErrorFields, goAppend]

/-- C8 counterexample: `SetCode` performs no validation, so the sequence
consisting of the single operation `SetCode 700` leaves the envelope's Code
at 700, which is not a valid HTTP-style status integer. -/
theorem envelope_code_invalid_counterexample :
    (applyOps (NewResponseVM Int) [EnvOp.setCode 700]).Code = 700 ∧
    isValidHTTPStatus 700 = false :=
  ⟨rfl, by decide⟩

/-- C8 (amended): the code performs no validation, so the Code field simply
holds the last integer supplied; provided every `SetCode` argument and every
classified error's carried code in the operation sequence is a valid
HTTP-style status, the envelope's Code after the sequence is either still 0
(never set) or a valid HTTP-style status — the generic-error path always
yields the valid status 500. -/
theorem envelope_code_valid (T : Type) [Inhabited T] (ops : List (EnvOp T))
    (h : ∀ op ∈ ops, opCodeValid op = true) :
    (applyOps (NewResponseVM T) ops).Code = 0 ∨
      isValidHTTPStatus (applyOps (NewResponseVM T) ops).Code = true := by
  have key : ∀ (l : List (EnvOp T)) (vm : ResponseVM T),
      (∀ op ∈ l, opCodeValid op = true) →
      (vm.Code = 0 ∨ isValidHTTPStatus vm.Code = true) →
      ((applyOps vm l).Code = 0 ∨ isValidHTTPStatus (applyOps vm l).Code = true) := by
    intro l
    induction l with
    | nil => intro vm _ hvm; exact hvm
    | cons op rest ih =>
      intro vm hall hvm
      have hop : opCodeValid op = true := hall op (List.mem_cons_self op rest)
      have hrest : ∀ o ∈ rest, opCodeValid o = true :=
        fun o ho => hall o (List.mem_cons_of_mem op ho)
      have step : (applyOp vm op).Code = 0 ∨
          isValidHTTPStatus (applyOp vm op).Code = true := by
        cases op with
        | setCode c => exact Or.inr hop
        | setData d => exact hvm
        | setError e => exact hvm
        | setErrorFromError e =>
          cases e with
          | none => exact hvm
          | some ge =>
            cases ge with
            | custom ce => exact Or.inr hop
            | generic s =>
              refine Or.inr ?_
              show isValidHTTPStatus statusInternalServerError = true
              decide
      exact ih (applyOp vm op) hrest step
  exact key ops (NewResponseVM T) h (Or.inl rfl)

/-- C8 witness: the amended theorem applied to the concrete operation
sequence SetCode 200 followed by SetErrorFromError with a generic error,
whose supplied codes are all valid; the resulting code (500) is a valid
HTTP-style status. -/
theorem envelope_code_valid_witness :
    (∀ op ∈ ([EnvOp.setCode 200,
        EnvOp.setErrorFromError (some (GoError.generic "boom"))] : List (EnvOp Int)),
      opCodeValid op = true) ∧
    ((applyOps (NewResponseVM Int) [EnvOp.setCode 200,
        EnvOp.setErrorFromError (some (GoError.generic "boom"))]).Code = 0 ∨
      isValidHTTPStatus (applyOps (NewResponseVM Int) [EnvOp.setCode 200,
        EnvOp.setErrorFromError (some (GoError.generic "boom"))]).Code = true) :=
  ⟨by decide,
    envelope_code_valid Int
      [EnvOp.setCode 200, EnvOp.setErrorFromError (some (GoError.generic "boom"))]
      (by decide)⟩

/-- C9: every operation is a total function of its inputs and never raises:
each setter is plain field assignment defined for every input, a nil error
is an explicitly handled case returning the entity unchanged, and a generic
error is silently handled by the fallback branch (message set to its text)
rather than escalated. -/
theorem operations_total {T : Type} (vm : ResponseVM T) (d : ResponseErrorVM)
    (code : Int) (data : T) (oe : Option ResponseErrorVM) (s msg : String)
    (fs : List ResponseErrorFieldVM) :
    vm.SetCode code = { vm with Code := code } ∧
    vm.SetData data = { vm with Data := data } ∧
    vm.SetError oe = { vm with Error := oe } ∧
    d.SetMessage msg = { d with Message := msg } ∧
    d.AddErrorFields fs = { d with ErrorFields := goAppend d.ErrorFields fs } ∧
    d.ParseError none = d ∧
    vm.SetErrorFromError none = vm ∧
    d.ParseError (some (GoError.generic s)) = d.SetMessage s ∧
    vm.SetErrorFromError (some (GoError.generic s))
      = { vm with Code := statusInternalServerError,
                  Error := some (NewResponseErrorVM.SetMessage s) } :=
  ⟨rfl, rfl, rfl, rfl, rfl, rfl, rfl, rfl, rfl⟩

/-- C10: for every non-nil error input, `SetErrorFromError` leaves the
envelope's Data field unchanged — only Code and Error are written in the
non-nil branch. -/
theorem setErrorFromError_data_unchanged {T : Type} (vm : ResponseVM T) (e : GoError) :
    (vm.SetErrorFromError (some e)).Data = vm.Data := by
  cases e <;> rfl

end Gores
